import Mathlib

/-!
Verification of the roastery back-office sales core.

Shallow embedding of the sales subsystem of the repository:
`SalesServices.createSaleWithItems`, `applyDiscount`, `updateSaleTotal`,
`getSalesBetweenDates` (src/services/SalesServices.js) and the
`SalesRepository` operations `updateTotalAmount`, `updateWithDiscount`,
`findBetweenDates`, `findById` (public/js/main.js, second document).

Modelling conventions:
- monetary values and percentages are rationals (JS numbers used for money);
  quantities and stock counts are integers (the code runs `parseInt` on them);
- a database snapshot is a record of the three tables the workflow touches;
- the SQL transaction is modelled by running the body against a working copy
  of the snapshot: COMMIT publishes the working copy, ROLLBACK discards it and
  the original snapshot is returned, which is exactly the SQL semantics;
- every storage statement issued by `createSaleWithItems` is recorded in a trace
  (`begin`, inserts, the `FOR UPDATE` select, updates, `commit`/`rollback`)
  so that claims about *when* storage is touched are statable;
- JS falsy checks (`!user_id`, `!quantity`, ...) become `= 0` tests on numbers,
  with `Option` for arguments that can be absent / non-numeric (`isNaN`);
- a storage fault while inserting a line item is modelled by a fault oracle
  `fault : Nat → Bool` consulted at each item index.
-/

/-- Calendar date as carried across the boundary in DD/MM/YYYY strings. -/
structure SDate where
  year : Nat
  month : Nat
  day : Nat
deriving DecidableEq, Repr

/-- Lexicographic comparison on calendar dates (year, then month, then day),
matching SQL date comparison. -/
def SDate.leb (a b : SDate) : Bool :=
  if a.year ≠ b.year then a.year < b.year
  else if a.month ≠ b.month then a.month < b.month
  else a.day ≤ b.day

/-- A row of the `sales` table. -/
structure SaleRow where
  sale_id : Int
  user_id : Int
  sale_date : SDate
  subtotal : ℚ
  discount_percentage : ℚ
  discount_amount : ℚ
  total_amount : ℚ
deriving DecidableEq, Repr

/-- A row of the `sale_items` table. -/
structure SaleItemRow where
  sale_item_id : Int
  sale_id : Int
  product_id : Int
  quantity : Int
  price_at_sale : ℚ
deriving DecidableEq, Repr

/-- A row of the `inventory` table (the fields the workflow reads/writes). -/
structure InvRow where
  product_id : Int
  quantity_in_stock : Int
deriving DecidableEq, Repr

/-- Snapshot of the storage state the sales workflow touches, plus the
sequence counters behind the generated primary keys and the clock behind
`sale_date DEFAULT now`. -/
structure DB where
  sales : List SaleRow
  sale_items : List SaleItemRow
  inventory : List InvRow
  nextSaleId : Int
  nextItemId : Int
  now : SDate
deriving DecidableEq, Repr

/-- One line item of a sale request: `{ product_id, quantity, price_at_sale }`. -/
structure Item where
  product_id : Int
  quantity : Int
  price_at_sale : ℚ
deriving DecidableEq, Repr

/-- The error conditions the sales code raises (each carries the data that
appears in the thrown message). -/
inductive SaleErr where
  | invalidUserId
  | invalidSaleId
  | noItems
  | invalidDiscount
  | invalidItem
  | invalidTotal
  | datesRequired
  | badDateFormat
  | saleNotFound
  | invNotFound (product_id : Int)
  | insufficientStock (product_id : Int) (available requested : Int)
  | storageFault
deriving DecidableEq, Repr

/-- The message text of each error, as thrown by the source. -/
def SaleErr.msg : SaleErr → String
  | .invalidUserId => "Invalid user ID"
  | .invalidSaleId => "Invalid sale ID"
  | .noItems => "Sale must have at least one item"
  | .invalidDiscount => "Discount percentage must be between 0 and 100"
  | .invalidItem => "Each item must have product_id, quantity, and price_at_sale"
  | .invalidTotal => "Invalid total amount"
  | .datesRequired => "Start date and end date are required"
  | .badDateFormat => "Invalid date format. Use DD/MM/YYYY"
  | .saleNotFound => "Sale not found"
  | .invNotFound pid => s!"Inventory record for product {pid} not found"
  | .insufficientStock pid a r =>
      s!"Insufficient stock for product {pid}. Available: {a}, Requested: {r}"
  | .storageFault => "storage failure"

/-- The storage statements `createSaleWithItems` can issue, in the order the
code issues them. -/
inductive StorageOp where
  | beginTx
  | insertSale
  | selectInventoryForUpdate (product_id : Int)
  | insertSaleItem (product_id : Int)
  | updateInventory (product_id : Int)
  | updateSale
  | commitTx
  | rollbackTx
deriving DecidableEq, Repr

/-- Look up the inventory row of a product (`SELECT ... WHERE product_id = $1`). -/
def invFind (inv : List InvRow) (pid : Int) : Option InvRow :=
  inv.find? (fun r => r.product_id == pid)

/-- Embeds `UPDATE inventory SET quantity_in_stock = quantity_in_stock - q WHERE product_id = pid`. -/
def invDec (inv : List InvRow) (pid : Int) (q : Int) : List InvRow :=
  inv.map (fun r =>
    if r.product_id == pid then { r with quantity_in_stock := r.quantity_in_stock - q } else r)

/-- The per-item loop of `createSaleWithItems`: validates the item fields
(JS falsy test), locks and reads the inventory row, checks stock, inserts the
`sale_items` row, decrements stock and accumulates the subtotal.  Returns the
trace of storage statements issued together with either the error that aborts
the transaction or the updated working snapshot and accumulated subtotal. -/
def processItems (fault : Nat → Bool) (sid : Int) :
    Nat → DB → ℚ → List Item → List StorageOp × Except SaleErr (DB × ℚ)
  | _, db, subtotal, [] => ([], .ok (db, subtotal))
  | idx, db, subtotal, item :: rest =>
    if item.product_id = 0 ∨ item.quantity = 0 ∨ item.price_at_sale = 0 then
      ([], .error .invalidItem)
    else
      match invFind db.inventory item.product_id with
      | none =>
          ([.selectInventoryForUpdate item.product_id], .error (.invNotFound item.product_id))
      | some inv =>
          if inv.quantity_in_stock < item.quantity then
            ([.selectInventoryForUpdate item.product_id],
             .error (.insufficientStock item.product_id inv.quantity_in_stock item.quantity))
          else if fault idx then
            ([.selectInventoryForUpdate item.product_id, .insertSaleItem item.product_id],
             .error .storageFault)
          else
            let db1 : DB :=
              { db with
                sale_items := db.sale_items ++
                  [⟨db.nextItemId, sid, item.product_id, item.quantity, item.price_at_sale⟩],
                nextItemId := db.nextItemId + 1,
                inventory := invDec db.inventory item.product_id item.quantity }
            let (t, r) :=
              processItems fault sid (idx + 1) db1 (subtotal + item.price_at_sale * item.quantity) rest
            ([.selectInventoryForUpdate item.product_id, .insertSaleItem item.product_id,
              .updateInventory item.product_id] ++ t, r)

/-- The body of the transaction of `createSaleWithItems`, run against the
working snapshot: input validation (note: inside the transaction, after
`BEGIN`), the `INSERT INTO sales` with all totals zero, the item loop, the
discount/total computation and the final `UPDATE sales`. -/
def createRun (db : DB) (user_id : Option Int) (items : Option (List Item))
    (pct : ℚ) (fault : Nat → Bool) :
    List StorageOp × Except SaleErr (DB × SaleRow) :=
  if user_id = none ∨ user_id = some 0 then ([], .error .invalidUserId)
  else
    match items with
    | none => ([], .error .noItems)
    | some its =>
      if its.isEmpty then ([], .error .noItems)
      else if pct < 0 ∨ 100 < pct then ([], .error .invalidDiscount)
      else
        let uid := user_id.getD 0
        let sid := db.nextSaleId
        let sale0 : SaleRow := ⟨sid, uid, db.now, 0, 0, 0, 0⟩
        let db0 : DB := { db with sales := db.sales ++ [sale0], nextSaleId := sid + 1 }
        match processItems fault sid 0 db0 0 its with
        | (t, .error e) => ([.insertSale] ++ t, .error e)
        | (t, .ok (db1, subtotal)) =>
          let discount_amount := subtotal * pct / 100
          let total_amount := subtotal - discount_amount
          let upd : SaleRow → SaleRow := fun r =>
            { r with subtotal := subtotal, discount_percentage := pct,
                     discount_amount := discount_amount, total_amount := total_amount }
          let db2 : DB :=
            { db1 with sales := db1.sales.map (fun r => if r.sale_id == sid then upd r else r) }
          ([.insertSale] ++ t ++ [.updateSale], .ok (db2, upd sale0))

instance {ε α : Type} [DecidableEq ε] [DecidableEq α] : DecidableEq (Except ε α) := fun a b =>
  match a, b with
  | .ok x, .ok y => decidable_of_iff (x = y) (by simp)
  | .error e, .error f => decidable_of_iff (e = f) (by simp)
  | .ok _, .error _ => isFalse (by simp)
  | .error _, .ok _ => isFalse (by simp)

/-- Result of one call to `createSaleWithItems`: the full trace of storage
statements issued, the storage state after the call, and either the created
sale row or the single wrapped error message surfaced to the caller. -/
structure CreateResult where
  trace : List StorageOp
  db : DB
  result : Except SaleErr SaleRow
deriving DecidableEq, Repr

/-- The caller-visible message: every failure inside the transaction is
re-thrown as one descriptive error with this prefix. -/
def wrapCreateMsg (e : SaleErr) : String :=
  "Failed to create sale with items: " ++ e.msg

/-- Embeds `SalesServices.createSaleWithItems`: `BEGIN`, run the body, `COMMIT` on
success (publishing the working snapshot) or `ROLLBACK` on any failure
(discarding it, so the original snapshot is returned unchanged). -/
def createSaleWithItems (db : DB) (user_id : Option Int) (items : Option (List Item))
    (pct : ℚ) (fault : Nat → Bool) : CreateResult :=
  match createRun db user_id items pct fault with
  | (t, .error e) => ⟨[.beginTx] ++ t ++ [.rollbackTx], db, .error e⟩
  | (t, .ok (db2, s)) => ⟨[.beginTx] ++ t ++ [.commitTx], db2, .ok s⟩

/-- Subtotal of an item list: `subtotal += price_at_sale * quantity`. -/
def itemsSubtotal (items : List Item) : ℚ :=
  items.foldl (fun s it => s + it.price_at_sale * it.quantity) 0

/-- All inventory decrements of an item list applied in order. -/
def decAll (inv : List InvRow) : List Item → List InvRow
  | [] => inv
  | it :: rest => decAll (invDec inv it.product_id it.quantity) rest

/-- Mirrors the run of the item loop on the inventory alone: every item is
well-formed, its inventory row exists, and the stock seen at that point (after
the decrements of the earlier items) covers the requested quantity. -/
def sufficientRun (inv : List InvRow) : List Item → Bool
  | [] => true
  | it :: rest =>
    !(it.product_id = 0 ∨ it.quantity = 0 ∨ it.price_at_sale = 0) &&
    match invFind inv it.product_id with
    | none => false
    | some r =>
      decide (it.quantity ≤ r.quantity_in_stock) &&
      sufficientRun (invDec inv it.product_id it.quantity) rest

/-- Embeds `SalesRepository.findById`: `SELECT ... FROM sales WHERE sale_id = $1`,
first matching row or null. -/
def findById (db : DB) (sid : Int) : Option SaleRow :=
  db.sales.find? (fun r => r.sale_id == sid)

/-- Embeds `SalesRepository.updateTotalAmount`: `UPDATE sales SET total_amount = $1
WHERE sale_id = $2 RETURNING ...` — sets `total_amount` alone and returns the
updated row, or null when no row matches. -/
def updateTotalAmount (db : DB) (sid : Int) (total : ℚ) : DB × Option SaleRow :=
  let db1 : DB :=
    { db with sales := db.sales.map (fun r =>
        if r.sale_id == sid then { r with total_amount := total } else r) }
  (db1, (findById db sid).map (fun r => { r with total_amount := total }))

/-- Embeds `SalesRepository.updateWithDiscount`: computes
`discount_amount = subtotal * discount_percentage / 100` and
`total_amount = subtotal - discount_amount`, then updates all four monetary
fields of the sale row together, returning the updated row or null. -/
def updateWithDiscount (db : DB) (sid : Int) (subtotal pct : ℚ) : DB × Option SaleRow :=
  let discount_amount := subtotal * pct / 100
  let total_amount := subtotal - discount_amount
  let upd : SaleRow → SaleRow := fun r =>
    { r with subtotal := subtotal, discount_percentage := pct,
             discount_amount := discount_amount, total_amount := total_amount }
  let db1 : DB :=
    { db with sales := db.sales.map (fun r => if r.sale_id == sid then upd r else r) }
  (db1, (findById db sid).map upd)

/-- Embeds `SalesServices.updateSaleTotal`: validates the sale id and total (JS falsy
and `isNaN` tests, `Option.none` standing for a missing or non-numeric value),
then delegates to `updateTotalAmount`. -/
def updateSaleTotal (db : DB) (sid : Option Int) (total : Option ℚ) :
    DB × Except SaleErr (Option SaleRow) :=
  if sid = none ∨ sid = some 0 then (db, .error .invalidSaleId)
  else
    match total with
    | none => (db, .error .invalidTotal)
    | some t =>
      let (db1, row) := updateTotalAmount db (sid.getD 0) t
      (db1, .ok row)

/-- Embeds `SalesServices.applyDiscount`: validates the sale id and the percentage
(must be present, numeric and in [0, 100]), loads the sale, fails with
"Sale not found" when absent, and otherwise recomputes the discount from the
*stored* subtotal via `updateWithDiscount`. -/
def applyDiscount (db : DB) (sid : Option Int) (pct : Option ℚ) :
    DB × Except SaleErr (Option SaleRow) :=
  if sid = none ∨ sid = some 0 then (db, .error .invalidSaleId)
  else
    match pct with
    | none => (db, .error .invalidDiscount)
    | some p =>
      if p < 0 ∨ 100 < p then (db, .error .invalidDiscount)
      else
        match findById db (sid.getD 0) with
        | none => (db, .error .saleNotFound)
        | some sale =>
          let (db1, row) := updateWithDiscount db (sid.getD 0) sale.subtotal p
          (db1, .ok row)

/-- Digit test on a character code (the `\d` of the date regex). -/
def isDigitCode (c : Char) : Bool :=
  48 ≤ c.toNat && c.toNat ≤ 57

/-- The date regex of `getSalesBetweenDates`: `^\d{2}\/\d{2}\/\d{4}$`. -/
def matchesDDMMYYYY (s : String) : Bool :=
  match s.toList with
  | [d1, d2, s1, m1, m2, s2, y1, y2, y3, y4] =>
    isDigitCode d1 && isDigitCode d2 && s1.toNat == 47 &&
    isDigitCode m1 && isDigitCode m2 && s2.toNat == 47 &&
    isDigitCode y1 && isDigitCode y2 && isDigitCode y3 && isDigitCode y4
  | _ => false

/-- Numeric value of a digit character. -/
def digitVal (c : Char) : Nat := c.toNat - 48

/-- Embeds `TO_DATE($1, 'DD/MM/YYYY')`: parse a DD/MM/YYYY string into a calendar
date; fails when the string does not have the DD/MM/YYYY shape. -/
def parseDDMMYYYY (s : String) : Option SDate :=
  match s.toList with
  | [d1, d2, s1, m1, m2, s2, y1, y2, y3, y4] =>
    if isDigitCode d1 && isDigitCode d2 && s1.toNat == 47 &&
       isDigitCode m1 && isDigitCode m2 && s2.toNat == 47 &&
       isDigitCode y1 && isDigitCode y2 && isDigitCode y3 && isDigitCode y4 then
      some ⟨1000 * digitVal y1 + 100 * digitVal y2 + 10 * digitVal y3 + digitVal y4,
            10 * digitVal m1 + digitVal m2,
            10 * digitVal d1 + digitVal d2⟩
    else none
  | _ => none

/-- Insert a sale row into a list kept in descending `sale_date` order. -/
def insertByDateDesc (r : SaleRow) : List SaleRow → List SaleRow
  | [] => [r]
  | x :: xs =>
    if SDate.leb x.sale_date r.sale_date then r :: x :: xs
    else x :: insertByDateDesc r xs

/-- Sort sale rows by `sale_date` descending (`ORDER BY sale_date DESC`). -/
def sortByDateDesc : List SaleRow → List SaleRow
  | [] => []
  | x :: xs => insertByDateDesc x (sortByDateDesc xs)

/-- Embeds `SalesRepository.findBetweenDates`: `WHERE sale_date::date BETWEEN
TO_DATE($1,'DD/MM/YYYY') AND TO_DATE($2,'DD/MM/YYYY') ORDER BY sale_date DESC`;
a string `TO_DATE` cannot parse makes the statement fail, which the repository
rethrows as a storage error. -/
def findBetweenDates (db : DB) (startDate endDate : String) :
    Except SaleErr (List SaleRow) :=
  match parseDDMMYYYY startDate, parseDDMMYYYY endDate with
  | some d1, some d2 =>
    .ok (sortByDateDesc (db.sales.filter
      (fun r => SDate.leb d1 r.sale_date && SDate.leb r.sale_date d2)))
  | _, _ => .error .storageFault

/-- Embeds `SalesServices.getSalesBetweenDates`: requires both dates (JS falsy test:
absent or empty string), checks each against the DD/MM/YYYY regex, and only
then queries the repository.  The boolean records whether the repository was
consulted at all. -/
def getSalesBetweenDates (db : DB) (startDate endDate : Option String) :
    Bool × Except SaleErr (List SaleRow) :=
  match startDate, endDate with
  | some s, some e =>
    if s = "" ∨ e = "" then (false, .error .datesRequired)
    else if !(matchesDDMMYYYY s) || !(matchesDDMMYYYY e) then
      (false, .error .badDateFormat)
    else (true, findBetweenDates db s e)
  | _, _ => (false, .error .datesRequired)

/-- Modelled from the spec: rounding to 2 decimal places, as in the spec's
invariant `discount_amount == round(subtotal * discount_percentage / 100, 2)`.
The source computes the discount without any rounding; this definition exists
only to compare the spec's wording against the code. -/
def specRound2 (q : ℚ) : ℚ := (round (q * 100) : ℤ) / 100

/-- Surfaced message of a call: on failure the single wrapped error string the
caller sees, on success none. -/
def surfacedMessage (c : CreateResult) : Option String :=
  match c.result with
  | .error e => some (wrapCreateMsg e)
  | .ok _ => none

/-- Fault oracle of a run with no storage faults. -/
def noFault : Nat → Bool := fun _ => false

/-- Example state for the spec's success scenario: one product with 10 units
in stock, no sales yet. -/
def dbScenario : DB := ⟨[], [], [⟨1, 10⟩], 100, 500, ⟨2024, 5, 1⟩⟩

/-- Example state for the spec's insufficient-stock scenario: one product with
2 units in stock. -/
def dbShort : DB := ⟨[], [], [⟨1, 2⟩], 100, 500, ⟨2024, 5, 1⟩⟩

/-- Example state with one product with 5 units in stock. -/
def dbFive : DB := ⟨[], [], [⟨1, 5⟩], 100, 500, ⟨2024, 5, 1⟩⟩

/-- Example state with one committed sale whose subtotal is 0.99. -/
def dbCent : DB := ⟨[⟨1, 7, ⟨2024, 5, 1⟩, 99/100, 0, 0, 99/100⟩], [], [], 2, 1, ⟨2024, 5, 1⟩⟩

/-- Example state with one committed sale with subtotal 10 and no discount. -/
def dbTen : DB := ⟨[⟨1, 7, ⟨2024, 5, 1⟩, 10, 0, 0, 10⟩], [], [], 2, 1, ⟨2024, 5, 1⟩⟩

/-- Example state with three sales on distinct dates for the date-range query. -/
def dbDates : DB :=
  ⟨[⟨1, 7, ⟨2024, 1, 5⟩, 10, 0, 0, 10⟩,
    ⟨2, 7, ⟨2023, 12, 31⟩, 4, 0, 0, 4⟩,
    ⟨3, 7, ⟨2024, 1, 31⟩, 6, 0, 0, 6⟩], [], [], 4, 1, ⟨2024, 5, 1⟩⟩

/-- Any failure of `createSaleWithItems` rolls the transaction back: the
storage state after the call is the state before it. -/
lemma create_error_db (db : DB) (uid : Option Int) (items : Option (List Item))
    (pct : ℚ) (fault : Nat → Bool) (e : SaleErr)
    (h : (createSaleWithItems db uid items pct fault).result = .error e) :
    (createSaleWithItems db uid items pct fault).db = db := by
  unfold createSaleWithItems at h ⊢
  rcases hr : createRun db uid items pct fault with ⟨t, r⟩
  cases r <;> simp [hr] at h ⊢

/-- C1.  createSaleWithItems is atomic: on any failure after the transaction
begins — invalid input, missing inventory row, insufficient stock, or a
storage fault on any line item (any fault oracle) — the storage state is
unchanged (no Sale row, no SaleItem row, no inventory decrement persists) and
a single descriptive wrapped error is surfaced. -/
theorem createSaleWithItems_atomic (db : DB) (uid : Option Int)
    (items : Option (List Item)) (pct : ℚ) (fault : Nat → Bool) (e : SaleErr)
    (h : (createSaleWithItems db uid items pct fault).result = .error e) :
    (createSaleWithItems db uid items pct fault).db = db ∧
    surfacedMessage (createSaleWithItems db uid items pct fault) =
      some (wrapCreateMsg e) := by
  refine ⟨create_error_db db uid items pct fault e h, ?_⟩
  simp [surfacedMessage, h]

/-- Witness for C1 at a concrete input: an empty item list makes the call
fail, the state is unchanged and the wrapped message is surfaced. -/
theorem createSaleWithItems_atomic_witness :
    (createSaleWithItems dbFive (some 7) (some []) 0 noFault).result = .error .noItems ∧
    ((createSaleWithItems dbFive (some 7) (some []) 0 noFault).db = dbFive ∧
     surfacedMessage (createSaleWithItems dbFive (some 7) (some []) 0 noFault) =
       some (wrapCreateMsg .noItems)) :=
  ⟨by decide,
   createSaleWithItems_atomic dbFive (some 7) (some []) 0 noFault .noItems (by decide)⟩

/-- C6 counterexample.  An invalid input (missing user id) does fail with a
validation error, but a storage call was already issued before the validation
checks: the trace of the call is `[BEGIN, ROLLBACK]`, not empty — the code
opens the transaction before validating. -/
theorem begin_issued_before_validation :
    (createSaleWithItems dbFive none (some [⟨1, 1, 5⟩]) 0 noFault).result =
      .error .invalidUserId ∧
    (createSaleWithItems dbFive none (some [⟨1, 1, 5⟩]) 0 noFault).trace =
      [.beginTx, .rollbackTx] ∧
    (createSaleWithItems dbFive none (some [⟨1, 1, 5⟩]) 0 noFault).trace ≠ [] := by
  refine ⟨by decide, by decide, by decide⟩

/-- C6 amended.  For every invalid input (missing or falsy user id, absent or
empty item list, discount percentage outside [0, 100]) the call fails with a
validation error and no query against the sales, sale_items or inventory
tables is issued; however the failure happens inside the transaction scope:
the storage statements issued are exactly the transaction BEGIN (issued before
the validation checks) and the ROLLBACK, and nothing persists. -/
theorem createSaleWithItems_validation_inside_tx (db : DB) (uid : Option Int)
    (items : Option (List Item)) (pct : ℚ) (fault : Nat → Bool)
    (h : uid = none ∨ uid = some 0 ∨ items = none ∨ items = some [] ∨
         pct < 0 ∨ 100 < pct) :
    ((createSaleWithItems db uid items pct fault).result = .error .invalidUserId ∨
     (createSaleWithItems db uid items pct fault).result = .error .noItems ∨
     (createSaleWithItems db uid items pct fault).result = .error .invalidDiscount) ∧
    (createSaleWithItems db uid items pct fault).trace = [.beginTx, .rollbackTx] ∧
    (createSaleWithItems db uid items pct fault).db = db := by
  unfold createSaleWithItems createRun
  by_cases h1 : uid = none ∨ uid = some 0
  · simp [h1]
  · cases items with
    | none => simp [h1]
    | some its =>
      by_cases h2 : its.isEmpty
      · simp [h1, h2]
      · have hpct : pct < 0 ∨ 100 < pct := by
          rcases h with h | h | h | h | h | h
          · exact absurd (Or.inl h) h1
          · exact absurd (Or.inr h) h1
          · exact absurd h (by simp)
          · obtain rfl : its = [] := by simpa using h
            simp at h2
          · exact Or.inl h
          · exact Or.inr h
        rcases hpct with hc | hc
        · simp [h1, h2, hc]
        · simp [h1, h2, hc, show pct < 0 ∨ 100 < pct from Or.inr hc]

/-- Witness for C6 amended at a concrete invalid input. -/
theorem createSaleWithItems_validation_inside_tx_witness :
    ((some (101 : ℚ) : Option ℚ) = some 101) ∧
    (((createSaleWithItems dbFive (some 7) (some [⟨1, 1, 5⟩]) 101 noFault).result =
        .error .invalidUserId ∨
      (createSaleWithItems dbFive (some 7) (some [⟨1, 1, 5⟩]) 101 noFault).result =
        .error .noItems ∨
      (createSaleWithItems dbFive (some 7) (some [⟨1, 1, 5⟩]) 101 noFault).result =
        .error .invalidDiscount) ∧
     (createSaleWithItems dbFive (some 7) (some [⟨1, 1, 5⟩]) 101 noFault).trace =
       [.beginTx, .rollbackTx] ∧
     (createSaleWithItems dbFive (some 7) (some [⟨1, 1, 5⟩]) 101 noFault).db = dbFive) :=
  ⟨rfl,
   createSaleWithItems_validation_inside_tx dbFive (some 7) (some [⟨1, 1, 5⟩]) 101 noFault
     (by norm_num)⟩

/-- C8.  getSalesBetweenDates rejects an absent date or a date that does not
match the DD/MM/YYYY shape with an error, and in that case the repository is
never consulted (the queried flag is false): no storage access happens before
the validation. -/
theorem getSalesBetweenDates_rejects_malformed (db : DB) (sd ed : Option String)
    (h : ∀ s e, sd = some s → ed = some e →
           matchesDDMMYYYY s = false ∨ matchesDDMMYYYY e = false) :
    (getSalesBetweenDates db sd ed).1 = false ∧
    ∃ err, (getSalesBetweenDates db sd ed).2 = .error err := by
  cases sd with
  | none => simp [getSalesBetweenDates]
  | some s =>
    cases ed with
    | none => simp [getSalesBetweenDates]
    | some e =>
      have hm := h s e rfl rfl
      unfold getSalesBetweenDates
      by_cases hs : s = "" ∨ e = ""
      · simp [hs]
      · rcases hm with hm | hm <;> simp [hs, hm]

/-- Witness for C8: a date in ISO shape is rejected and the repository flag
stays false. -/
theorem getSalesBetweenDates_rejects_malformed_witness :
    (matchesDDMMYYYY "2024-01-01" = false ∨
     matchesDDMMYYYY "31/01/2024" = false) ∧
    ((getSalesBetweenDates dbDates (some "2024-01-01") (some "31/01/2024")).1 = false ∧
     ∃ err, (getSalesBetweenDates dbDates (some "2024-01-01") (some "31/01/2024")).2 =
       .error err) :=
  ⟨Or.inl (by decide),
   getSalesBetweenDates_rejects_malformed dbDates (some "2024-01-01") (some "31/01/2024")
     (fun s e hs he => by
       cases hs; cases he; exact Or.inl (by decide))⟩

unseal Rat.mul Rat.add Rat.inv Rat.sub in
/-- C10.  A line item with a falsy (zero) product_id, quantity or price is
rejected, but a strictly negative quantity is not: with stock 5 a sale of
quantity -3 passes the stock check (5 < -3 is false), commits, and the
inventory rises from 5 to 8 — an increase by the absolute value of the
quantity. -/
theorem createSaleWithItems_negative_quantity_commits :
    (createSaleWithItems dbFive (some 7) (some [⟨1, 0, 5⟩]) 0 noFault).result =
      .error .invalidItem ∧
    (createSaleWithItems dbFive (some 7) (some [⟨0, 2, 5⟩]) 0 noFault).result =
      .error .invalidItem ∧
    (createSaleWithItems dbFive (some 7) (some [⟨1, 2, 0⟩]) 0 noFault).result =
      .error .invalidItem ∧
    (createSaleWithItems dbFive (some 7) (some [⟨1, -3, 5⟩]) 0 noFault).result =
      .ok ⟨100, 7, ⟨2024, 5, 1⟩, -15, 0, 0, -15⟩ ∧
    dbFive.inventory = [⟨1, 5⟩] ∧
    (createSaleWithItems dbFive (some 7) (some [⟨1, -3, 5⟩]) 0 noFault).db.inventory =
      [⟨1, 8⟩] := by
  refine ⟨by decide, by decide, by decide, by decide, by decide, by decide⟩

/-- Every sale row produced by the success branch of `createRun` has its
discount and total recomputed together from its subtotal and percentage. -/
lemma createRun_ok_money (db : DB) (uid : Option Int) (items : Option (List Item))
    (pct : ℚ) (fault : Nat → Bool) (t : List StorageOp) (db' : DB) (s : SaleRow)
    (h : createRun db uid items pct fault = (t, .ok (db', s))) :
    s.discount_amount = s.subtotal * s.discount_percentage / 100 ∧
    s.total_amount = s.subtotal - s.discount_amount := by
  unfold createRun at h
  by_cases h1 : uid = none ∨ uid = some 0
  · simp [h1] at h
  · cases items with
    | none => simp [h1] at h
    | some its =>
      by_cases h2 : its.isEmpty
      · simp [h1, h2] at h
      · by_cases h3 : pct < 0 ∨ 100 < pct
        · simp [h1, h2, h3] at h
        · simp only [h1, h2, h3, if_false, if_neg, Bool.false_eq_true] at h
          rcases hp : processItems fault db.nextSaleId 0
              { db with sales := db.sales ++ [⟨db.nextSaleId, uid.getD 0, db.now, 0, 0, 0, 0⟩],
                        nextSaleId := db.nextSaleId + 1 } 0 its with ⟨tp, rp⟩
          rw [hp] at h
          cases rp with
          | error e => simp at h
          | ok v =>
            simp at h
            obtain ⟨-, -, hs⟩ := h
            subst hs
            constructor
            · rfl
            · rfl

/-- Every sale row returned by the repository's `updateWithDiscount` has its
four monetary fields set together from the given subtotal and percentage. -/
lemma updateWithDiscount_money (db : DB) (sid : Int) (subtotal pct : ℚ)
    (db' : DB) (s : SaleRow)
    (h : updateWithDiscount db sid subtotal pct = (db', some s)) :
    s.subtotal = subtotal ∧ s.discount_percentage = pct ∧
    s.discount_amount = s.subtotal * s.discount_percentage / 100 ∧
    s.total_amount = s.subtotal - s.discount_amount := by
  unfold updateWithDiscount at h
  rcases hf : findById db sid with - | r
  · simp [hf] at h
  · simp [hf] at h
    obtain ⟨-, hs⟩ := h
    subst hs
    exact ⟨rfl, rfl, rfl, rfl⟩

unseal Rat.mul Rat.add Rat.inv Rat.sub in
/-- C2 counterexample.  A committed sale (discount applied to a sale with
subtotal 0.99 at 33%) stores discount_amount = 0.3267, which is not
`round(subtotal * discount_percentage / 100, 2)` = 0.33: the code applies no
rounding to 2 decimal places. -/
theorem discount_not_rounded_to_cents :
    (applyDiscount dbCent (some 1) (some 33)).2 =
      .ok (some ⟨1, 7, ⟨2024, 5, 1⟩, 99/100, 33, 3267/10000, 6633/10000⟩) ∧
    ¬ ((3267/10000 : ℚ) = specRound2 ((99/100 : ℚ) * 33 / 100)) :=
  ⟨by decide, by decide⟩

/-- C2 amended.  For every committed Sale — whether produced by
createSaleWithItems or by applying a discount via applyDiscount (which uses
the repository's updateWithDiscount) — discount_amount equals exactly
subtotal * discount_percentage / 100 with no rounding, and total_amount
equals subtotal - discount_amount. -/
theorem sale_money_invariant (db : DB) (uid : Option Int) (items : Option (List Item))
    (pct : ℚ) (fault : Nat → Bool) (s : SaleRow)
    (db2 : DB) (sid : Option Int) (pct2 : Option ℚ) (s2 : SaleRow) :
    ((createSaleWithItems db uid items pct fault).result = .ok s →
      s.discount_amount = s.subtotal * s.discount_percentage / 100 ∧
      s.total_amount = s.subtotal - s.discount_amount) ∧
    ((applyDiscount db2 sid pct2).2 = .ok (some s2) →
      s2.discount_amount = s2.subtotal * s2.discount_percentage / 100 ∧
      s2.total_amount = s2.subtotal - s2.discount_amount) := by
  constructor
  · intro h
    unfold createSaleWithItems at h
    rcases hr : createRun db uid items pct fault with ⟨t, r⟩
    rw [hr] at h
    cases r with
    | error e => simp at h
    | ok v =>
      rcases v with ⟨db', s'⟩
      simp at h
      subst h
      exact createRun_ok_money db uid items pct fault t db' s' hr
  · intro h
    unfold applyDiscount at h
    by_cases h1 : sid = none ∨ sid = some 0
    · simp [h1] at h
    · cases pct2 with
      | none => simp [h1] at h
      | some p =>
        by_cases h2 : p < 0 ∨ 100 < p
        · simp [h1, h2] at h
        · rcases hf : findById db2 (sid.getD 0) with - | sale
          · simp [h1, h2, hf] at h
          · rcases hu : updateWithDiscount db2 (sid.getD 0) sale.subtotal p with ⟨db1, row⟩
            simp [h1, h2, hf, hu] at h
            cases row with
            | none => simp at h
            | some srow =>
              simp at h
              subst h
              obtain ⟨-, -, h3, h4⟩ :=
                updateWithDiscount_money db2 (sid.getD 0) sale.subtotal p db1 srow hu
              exact ⟨h3, h4⟩

unseal Rat.mul Rat.add Rat.inv Rat.sub in
/-- Witness for C2 amended: the success scenario and the 0.99-subtotal
discount both satisfy the exact (unrounded) invariant. -/
theorem sale_money_invariant_witness :
    ((createSaleWithItems dbScenario (some 7) (some [⟨1, 3, 5⟩]) 10 noFault).result =
       .ok ⟨100, 7, ⟨2024, 5, 1⟩, 15, 10, 3/2, 27/2⟩ ∧
     (applyDiscount dbCent (some 1) (some 33)).2 =
       .ok (some ⟨1, 7, ⟨2024, 5, 1⟩, 99/100, 33, 3267/10000, 6633/10000⟩)) ∧
    (((3/2 : ℚ) = 15 * 10 / 100 ∧ (27/2 : ℚ) = 15 - 3/2) ∧
     ((3267/10000 : ℚ) = (99/100) * 33 / 100 ∧
      (6633/10000 : ℚ) = 99/100 - 3267/10000)) :=
  ⟨⟨by decide, by decide⟩,
   ⟨(sale_money_invariant dbScenario (some 7) (some [⟨1, 3, 5⟩]) 10 noFault
       ⟨100, 7, ⟨2024, 5, 1⟩, 15, 10, 3/2, 27/2⟩ dbCent (some 1) (some 33)
       ⟨1, 7, ⟨2024, 5, 1⟩, 99/100, 33, 3267/10000, 6633/10000⟩).1 (by decide),
    (sale_money_invariant dbScenario (some 7) (some [⟨1, 3, 5⟩]) 10 noFault
       ⟨100, 7, ⟨2024, 5, 1⟩, 15, 10, 3/2, 27/2⟩ dbCent (some 1) (some 33)
       ⟨1, 7, ⟨2024, 5, 1⟩, 99/100, 33, 3267/10000, 6633/10000⟩).2 (by decide)⟩⟩

unseal Rat.mul Rat.add Rat.inv Rat.sub in
/-- C3 counterexample.  The repository operation `updateTotalAmount` (exposed
by the service as `updateSaleTotal`) commits a change of total_amount alone:
on a sale with subtotal 10, discount_amount 0, total_amount 10, setting the
total to 7 leaves subtotal and discount_amount untouched, and the committed
row violates total_amount = subtotal - discount_amount. -/
theorem updateTotalAmount_sets_total_independently :
    dbTen.sales = [⟨1, 7, ⟨2024, 5, 1⟩, 10, 0, 0, 10⟩] ∧
    (updateTotalAmount dbTen 1 7).1.sales = [⟨1, 7, ⟨2024, 5, 1⟩, 10, 0, 0, 7⟩] ∧
    (updateTotalAmount dbTen 1 7).2 = some ⟨1, 7, ⟨2024, 5, 1⟩, 10, 0, 0, 7⟩ ∧
    ¬ ((7 : ℚ) = 10 - 0) :=
  ⟨by decide, by decide, by decide, by decide⟩

/-- C3 amended.  createSaleWithItems and updateWithDiscount (the discount
path) always recompute discount_amount and total_amount together from
subtotal and discount_percentage; but the repository also exposes
updateTotalAmount, a committed operation that sets total_amount alone while
leaving the stored subtotal and discount_amount exactly as they were. -/
theorem money_recompute_and_updateTotalAmount_exception
    (db : DB) (uid : Option Int) (items : Option (List Item)) (pct : ℚ)
    (fault : Nat → Bool) (s : SaleRow)
    (db2 : DB) (sid2 : Int) (sub2 p2 : ℚ) (db2' : DB) (s2 : SaleRow)
    (db3 : DB) (sid3 : Int) (t3 : ℚ) (db3' : DB) (s3 : SaleRow) :
    ((createSaleWithItems db uid items pct fault).result = .ok s →
      s.discount_amount = s.subtotal * s.discount_percentage / 100 ∧
      s.total_amount = s.subtotal - s.discount_amount) ∧
    (updateWithDiscount db2 sid2 sub2 p2 = (db2', some s2) →
      s2.discount_amount = s2.subtotal * s2.discount_percentage / 100 ∧
      s2.total_amount = s2.subtotal - s2.discount_amount) ∧
    (updateTotalAmount db3 sid3 t3 = (db3', some s3) →
      ∃ s0, findById db3 sid3 = some s0 ∧ s3.subtotal = s0.subtotal ∧
        s3.discount_percentage = s0.discount_percentage ∧
        s3.discount_amount = s0.discount_amount ∧ s3.total_amount = t3) := by
  refine ⟨?_, ?_, ?_⟩
  · intro h
    unfold createSaleWithItems at h
    rcases hr : createRun db uid items pct fault with ⟨t, r⟩
    rw [hr] at h
    cases r with
    | error e => simp at h
    | ok v =>
      rcases v with ⟨db', s'⟩
      simp at h
      subst h
      exact createRun_ok_money db uid items pct fault t db' s' hr
  · intro h
    obtain ⟨-, -, h3, h4⟩ := updateWithDiscount_money db2 sid2 sub2 p2 db2' s2 h
    exact ⟨h3, h4⟩
  · intro h
    unfold updateTotalAmount at h
    rcases hf : findById db3 sid3 with - | s0
    · simp [hf] at h
    · simp [hf] at h
      obtain ⟨-, hs⟩ := h
      subst hs
      exact ⟨s0, rfl, rfl, rfl, rfl, rfl⟩

unseal Rat.mul Rat.add Rat.inv Rat.sub in
/-- Witness for C3 amended at concrete inputs: the scenario sale keeps the
invariant, and updateTotalAmount on dbTen returns the row with only
total_amount changed. -/
theorem money_recompute_exception_witness :
    ((createSaleWithItems dbScenario (some 7) (some [⟨1, 3, 5⟩]) 10 noFault).result =
       .ok ⟨100, 7, ⟨2024, 5, 1⟩, 15, 10, 3/2, 27/2⟩ ∧
     updateTotalAmount dbTen 1 7 =
       ({ dbTen with sales := [⟨1, 7, ⟨2024, 5, 1⟩, 10, 0, 0, 7⟩] },
        some ⟨1, 7, ⟨2024, 5, 1⟩, 10, 0, 0, 7⟩)) ∧
    (((3/2 : ℚ) = 15 * 10 / 100 ∧ (27/2 : ℚ) = 15 - 3/2) ∧
     ∃ s0, findById dbTen 1 = some s0 ∧
       (⟨1, 7, ⟨2024, 5, 1⟩, 10, 0, 0, 7⟩ : SaleRow).subtotal = s0.subtotal ∧
       (⟨1, 7, ⟨2024, 5, 1⟩, 10, 0, 0, 7⟩ : SaleRow).discount_percentage =
         s0.discount_percentage ∧
       (⟨1, 7, ⟨2024, 5, 1⟩, 10, 0, 0, 7⟩ : SaleRow).discount_amount =
         s0.discount_amount ∧
       (⟨1, 7, ⟨2024, 5, 1⟩, 10, 0, 0, 7⟩ : SaleRow).total_amount = 7) :=
  ⟨⟨by decide, by decide⟩,
   ⟨(money_recompute_and_updateTotalAmount_exception dbScenario (some 7)
       (some [⟨1, 3, 5⟩]) 10 noFault ⟨100, 7, ⟨2024, 5, 1⟩, 15, 10, 3/2, 27/2⟩
       dbTen 1 10 0 dbTen ⟨1, 7, ⟨2024, 5, 1⟩, 10, 0, 0, 10⟩
       dbTen 1 7 { dbTen with sales := [⟨1, 7, ⟨2024, 5, 1⟩, 10, 0, 0, 7⟩] }
       ⟨1, 7, ⟨2024, 5, 1⟩, 10, 0, 0, 7⟩).1 (by decide),
    (money_recompute_and_updateTotalAmount_exception dbScenario (some 7)
       (some [⟨1, 3, 5⟩]) 10 noFault ⟨100, 7, ⟨2024, 5, 1⟩, 15, 10, 3/2, 27/2⟩
       dbTen 1 10 0 dbTen ⟨1, 7, ⟨2024, 5, 1⟩, 10, 0, 0, 10⟩
       dbTen 1 7 { dbTen with sales := [⟨1, 7, ⟨2024, 5, 1⟩, 10, 0, 0, 7⟩] }
       ⟨1, 7, ⟨2024, 5, 1⟩, 10, 0, 0, 7⟩).2.2 (by decide)⟩⟩

lemma processItems_insufficient_lt (fault : Nat → Bool) (sid : Int) :
    ∀ (items : List Item) (idx : Nat) (db : DB) (sub : ℚ) (pid : Int) (a r : Int),
      (processItems fault sid idx db sub items).2 =
        .error (.insufficientStock pid a r) → a < r := by
  intro items
  induction items with
  | nil =>
    intro idx db sub pid a r h
    simp [processItems] at h
  | cons it rest ih =>
    intro idx db sub pid a r h
    rw [processItems] at h
    by_cases h1 : it.product_id = 0 ∨ it.quantity = 0 ∨ it.price_at_sale = 0
    · simp [h1] at h
    · rcases hf : invFind db.inventory it.product_id with - | inv
      · simp [h1, hf] at h
      · by_cases h2 : inv.quantity_in_stock < it.quantity
        · simp [h1, hf, h2] at h
          obtain ⟨hpid, ha, hr⟩ := h
          subst ha; subst hr; exact h2
        · by_cases h3 : fault idx
          · simp [h1, hf, h2, h3] at h
          · simp only [h1, hf, h2, h3, if_false, if_neg, Bool.false_eq_true,
              not_false_eq_true] at h
            rcases hrec : processItems fault sid (idx + 1)
                { db with
                  sale_items := db.sale_items ++
                    [⟨db.nextItemId, sid, it.product_id, it.quantity, it.price_at_sale⟩],
                  nextItemId := db.nextItemId + 1,
                  inventory := invDec db.inventory it.product_id it.quantity }
                (sub + it.price_at_sale * it.quantity) rest with ⟨tr, rr⟩
            rw [hrec] at h
            simp at h
            exact ih _ _ _ pid a r (by rw [hrec]; exact h)

lemma processItems_no_insufficient_of_sufficient (fault : Nat → Bool) (sid : Int) :
    ∀ (items : List Item) (idx : Nat) (db : DB) (sub : ℚ),
      sufficientRun db.inventory items = true →
      ∀ pid a r, (processItems fault sid idx db sub items).2 ≠
        .error (.insufficientStock pid a r) := by
  intro items
  induction items with
  | nil =>
    intro idx db sub hs pid a r h
    simp [processItems] at h
  | cons it rest ih =>
    intro idx db sub hs pid a r h
    rw [sufficientRun] at hs
    rw [processItems] at h
    by_cases h1 : it.product_id = 0 ∨ it.quantity = 0 ∨ it.price_at_sale = 0
    · simp [h1] at hs
    · rcases hf : invFind db.inventory it.product_id with - | inv
      · rw [hf] at hs; simp [h1] at hs
      · rw [hf] at hs
        simp only [h1, decide_False, Bool.not_false, Bool.true_and, Bool.and_eq_true,
          decide_eq_true_eq] at hs
        obtain ⟨hle, hrest⟩ := hs
        have h2 : ¬ inv.quantity_in_stock < it.quantity := not_lt.mpr hle
        by_cases h3 : fault idx
        · simp [h1, hf, h2, h3] at h
        · simp only [h1, hf, h2, h3, if_false, if_neg, Bool.false_eq_true,
            not_false_eq_true] at h
          rcases hrec : processItems fault sid (idx + 1)
              { db with
                sale_items := db.sale_items ++
                  [⟨db.nextItemId, sid, it.product_id, it.quantity, it.price_at_sale⟩],
                nextItemId := db.nextItemId + 1,
                inventory := invDec db.inventory it.product_id it.quantity }
              (sub + it.price_at_sale * it.quantity) rest with ⟨tr, rr⟩
          rw [hrec] at h
          simp at h
          exact ih _ _ _ hrest pid a r (by rw [hrec]; exact h)

lemma itemsSubtotal_cons (it : Item) (rest : List Item) :
    itemsSubtotal (it :: rest)
      = it.price_at_sale * (it.quantity : ℚ) + itemsSubtotal rest := by
  have aux : ∀ (l : List Item) (s : ℚ),
      l.foldl (fun a x => a + x.price_at_sale * (x.quantity : ℚ)) s
        = s + l.foldl (fun a x => a + x.price_at_sale * (x.quantity : ℚ)) 0 := by
    intro l
    induction l with
    | nil => intro s; simp
    | cons x xs ih =>
      intro s
      simp only [List.foldl_cons]
      rw [ih (s + x.price_at_sale * (x.quantity : ℚ)),
        ih (0 + x.price_at_sale * (x.quantity : ℚ))]
      ring
  unfold itemsSubtotal
  simp only [List.foldl_cons]
  rw [aux rest (0 + it.price_at_sale * (it.quantity : ℚ))]
  ring

lemma processItems_success_of_sufficient (fault : Nat → Bool) (sid : Int)
    (hfault : ∀ i, fault i = false) :
    ∀ (items : List Item) (idx : Nat) (db : DB) (sub : ℚ),
      sufficientRun db.inventory items = true →
      ∃ t db', processItems fault sid idx db sub items =
          (t, .ok (db', sub + itemsSubtotal items)) ∧
        db'.inventory = decAll db.inventory items ∧
        db'.sales = db.sales ∧ db'.nextSaleId = db.nextSaleId ∧ db'.now = db.now := by
  intro items
  induction items with
  | nil =>
    intro idx db sub hs
    refine ⟨[], db, ?_, rfl, rfl, rfl, rfl⟩
    simp [processItems, itemsSubtotal]
  | cons it rest ih =>
    intro idx db sub hs
    rw [sufficientRun] at hs
    by_cases h1 : it.product_id = 0 ∨ it.quantity = 0 ∨ it.price_at_sale = 0
    · simp [h1] at hs
    · rcases hf : invFind db.inventory it.product_id with - | inv
      · rw [hf] at hs; simp [h1] at hs
      · rw [hf] at hs
        simp only [h1, decide_False, Bool.not_false, Bool.true_and, Bool.and_eq_true,
          decide_eq_true_eq] at hs
        obtain ⟨hle, hrest⟩ := hs
        have h2 : ¬ inv.quantity_in_stock < it.quantity := not_lt.mpr hle
        obtain ⟨t, db', heq, hinv, hsales, hnext, hnow⟩ :=
          ih (idx + 1)
            { db with
              sale_items := db.sale_items ++
                [⟨db.nextItemId, sid, it.product_id, it.quantity, it.price_at_sale⟩],
              nextItemId := db.nextItemId + 1,
              inventory := invDec db.inventory it.product_id it.quantity }
            (sub + it.price_at_sale * it.quantity) hrest
        refine ⟨[.selectInventoryForUpdate it.product_id, .insertSaleItem it.product_id,
                 .updateInventory it.product_id] ++ t, db', ?_, ?_, ?_, ?_, ?_⟩
        · rw [processItems]
          simp only [h1, hf, h2, hfault idx, if_false, if_neg, Bool.false_eq_true,
            not_false_eq_true]
          rw [heq]
          have : sub + itemsSubtotal (it :: rest)
              = sub + it.price_at_sale * it.quantity + itemsSubtotal rest := by
            rw [itemsSubtotal_cons]; ring
          rw [this]
        · rw [hinv]; rfl
        · rw [hsales]
        · rw [hnext]
        · rw [hnow]

lemma create_result_error_run (db : DB) (uid : Option Int) (items : Option (List Item))
    (pct : ℚ) (fault : Nat → Bool) (e : SaleErr)
    (h : (createSaleWithItems db uid items pct fault).result = .error e) :
    ∃ t, createRun db uid items pct fault = (t, .error e) := by
  unfold createSaleWithItems at h
  rcases hr : createRun db uid items pct fault with ⟨t, r⟩
  rw [hr] at h
  cases r with
  | error e' => simp at h; subst h; exact ⟨t, rfl⟩
  | ok v => simp at h

lemma createRun_insufficient_lt (db : DB) (uid : Option Int) (items : Option (List Item))
    (pct : ℚ) (fault : Nat → Bool) (t : List StorageOp) (pid a r : Int)
    (h : createRun db uid items pct fault = (t, .error (.insufficientStock pid a r))) :
    a < r := by
  unfold createRun at h
  by_cases h1 : uid = none ∨ uid = some 0
  · simp [h1] at h
  · cases items with
    | none => simp [h1] at h
    | some its =>
      by_cases h2 : its.isEmpty
      · simp [h1, h2] at h
      · by_cases h3 : pct < 0 ∨ 100 < pct
        · simp [h1, h2, h3] at h
        · simp only [h1, h2, h3, if_false, if_neg, Bool.false_eq_true] at h
          rcases hp : processItems fault db.nextSaleId 0
              { db with sales := db.sales ++ [⟨db.nextSaleId, uid.getD 0, db.now, 0, 0, 0, 0⟩],
                        nextSaleId := db.nextSaleId + 1 } 0 its with ⟨tp, rp⟩
          rw [hp] at h
          cases rp with
          | error e' =>
            simp at h
            obtain ⟨-, he⟩ := h
            exact processItems_insufficient_lt fault db.nextSaleId its 0 _ 0 pid a r
              (by rw [hp, he])
          | ok v => simp at h

lemma createRun_error_shape (db : DB) (uid : Option Int) (its : List Item)
    (pct : ℚ) (fault : Nat → Bool) (t : List StorageOp) (e : SaleErr)
    (h : createRun db uid (some its) pct fault = (t, .error e)) :
    e = .invalidUserId ∨ e = .noItems ∨ e = .invalidDiscount ∨
    ∃ tp db0, db0.inventory = db.inventory ∧
      processItems fault db.nextSaleId 0 db0 0 its = (tp, .error e) := by
  unfold createRun at h
  by_cases h1 : uid = none ∨ uid = some 0
  · simp [h1] at h
    exact Or.inl h.2.symm
  · by_cases h2 : its.isEmpty
    · simp [h1, h2] at h
      exact Or.inr (Or.inl h.2.symm)
    · by_cases h3 : pct < 0 ∨ 100 < pct
      · simp [h1, h2, h3] at h
        exact Or.inr (Or.inr (Or.inl h.2.symm))
      · simp only [h1, h2, h3, if_false, if_neg, Bool.false_eq_true] at h
        rcases hp : processItems fault db.nextSaleId 0
            { db with sales := db.sales ++ [⟨db.nextSaleId, uid.getD 0, db.now, 0, 0, 0, 0⟩],
                      nextSaleId := db.nextSaleId + 1 } 0 its with ⟨tp, rp⟩
        rw [hp] at h
        cases rp with
        | error e' =>
          simp at h
          obtain ⟨-, he⟩ := h
          subst he
          exact Or.inr (Or.inr (Or.inr ⟨tp,
            { db with sales := db.sales ++ [⟨db.nextSaleId, uid.getD 0, db.now, 0, 0, 0, 0⟩],
                      nextSaleId := db.nextSaleId + 1 }, rfl, hp⟩))
        | ok v => simp at h

/-- C4.  If createSaleWithItems fails with an insufficient-stock error, the
error names an available amount strictly below the requested quantity and the
whole transaction is rolled back (inventory unchanged); and when the locked
stock covers every item in run order, the call never fails with an
insufficient-stock error. -/
theorem createSaleWithItems_stock_check (db : DB) (uid : Option Int)
    (items : List Item) (pct : ℚ) (fault : Nat → Bool) :
    (∀ pid a r,
      (createSaleWithItems db uid (some items) pct fault).result =
        .error (.insufficientStock pid a r) →
      a < r ∧ (createSaleWithItems db uid (some items) pct fault).db = db) ∧
    (sufficientRun db.inventory items = true →
      ∀ pid a r,
        (createSaleWithItems db uid (some items) pct fault).result ≠
          .error (.insufficientStock pid a r)) := by
  constructor
  · intro pid a r h
    obtain ⟨t, hr⟩ := create_result_error_run db uid (some items) pct fault _ h
    exact ⟨createRun_insufficient_lt db uid (some items) pct fault t pid a r hr,
      create_error_db db uid (some items) pct fault _ h⟩
  · intro hs pid a r h
    obtain ⟨t, hr⟩ := create_result_error_run db uid (some items) pct fault _ h
    rcases createRun_error_shape db uid items pct fault t _ hr with he | he | he | he
    · cases he
    · cases he
    · cases he
    · obtain ⟨tp, db0, hinv, hp⟩ := he
      refine processItems_no_insufficient_of_sufficient fault db.nextSaleId items 0 db0 0
        ?_ pid a r (by rw [hp])
      rw [hinv]
      exact hs

lemma map_upd_fresh (l : List SaleRow) (sid : Int) (f : SaleRow → SaleRow)
    (hfr : ∀ r ∈ l, r.sale_id ≠ sid) :
    l.map (fun r => if r.sale_id == sid then f r else r) = l := by
  induction l with
  | nil => rfl
  | cons x xs ih =>
    have hx : (x.sale_id == sid) = false := by
      simp [hfr x (List.mem_cons_self x xs)]
    simp only [List.map_cons, hx, if_false, Bool.false_eq_true, if_neg, not_false_eq_true]
    rw [ih (fun r hr => hfr r (List.mem_cons_of_mem x hr))]

/-- C5.  For every valid input (nonzero user id, nonempty well-formed item
list, discount in range, no storage fault, sufficient stock, fresh sale id)
createSaleWithItems commits a sale whose subtotal is the sum of
price_at_sale * quantity over the items, whose discount and total are
computed from it, and whose run decrements each product's stock by exactly
the quantities of its items; the sale row is appended to the sales table. -/
theorem createSaleWithItems_success_spec (db : DB) (uid : Int) (items : List Item)
    (pct : ℚ) (fault : Nat → Bool)
    (huid : uid ≠ 0) (hne : items ≠ [])
    (hp0 : ¬ pct < 0) (hp1 : ¬ 100 < pct)
    (hfault : ∀ i, fault i = false)
    (hs : sufficientRun db.inventory items = true)
    (hfresh : ∀ r ∈ db.sales, r.sale_id ≠ db.nextSaleId) :
    ∃ s, (createSaleWithItems db (some uid) (some items) pct fault).result = .ok s ∧
      s.subtotal = itemsSubtotal items ∧
      s.discount_percentage = pct ∧
      s.discount_amount = itemsSubtotal items * pct / 100 ∧
      s.total_amount = itemsSubtotal items - itemsSubtotal items * pct / 100 ∧
      s.user_id = uid ∧
      (createSaleWithItems db (some uid) (some items) pct fault).db.inventory =
        decAll db.inventory items ∧
      (createSaleWithItems db (some uid) (some items) pct fault).db.sales =
        db.sales ++ [s] := by
  have h1 : ¬ ((some uid : Option Int) = none ∨ (some uid : Option Int) = some 0) := by
    simp [huid]
  have h2 : items.isEmpty = false := by
    cases items with
    | nil => exact absurd rfl hne
    | cons a l => rfl
  have h3 : ¬ (pct < 0 ∨ 100 < pct) := by
    intro hc; rcases hc with hc | hc
    · exact hp0 hc
    · exact hp1 hc
  obtain ⟨t, db', heq, hinv, hsales, hnext, hnow⟩ :=
    processItems_success_of_sufficient fault db.nextSaleId hfault items 0
      { db with sales := db.sales ++ [⟨db.nextSaleId, uid, db.now, 0, 0, 0, 0⟩],
                nextSaleId := db.nextSaleId + 1 } 0 hs
  rw [zero_add] at heq
  have hcr : createRun db (some uid) (some items) pct fault =
      ([.insertSale] ++ t ++ [.updateSale],
       .ok ({ db' with sales := db'.sales.map (fun r =>
                if r.sale_id == db.nextSaleId then
                  { r with subtotal := itemsSubtotal items, discount_percentage := pct,
                           discount_amount := itemsSubtotal items * pct / 100,
                           total_amount := itemsSubtotal items -
                             itemsSubtotal items * pct / 100 } else r) },
            ⟨db.nextSaleId, uid, db.now, itemsSubtotal items, pct,
             itemsSubtotal items * pct / 100,
             itemsSubtotal items - itemsSubtotal items * pct / 100⟩)) := by
    unfold createRun
    simp only [h1, h2, h3, if_false, if_neg, Bool.false_eq_true, not_false_eq_true,
      Option.getD_some]
    rw [heq]
  refine ⟨⟨db.nextSaleId, uid, db.now, itemsSubtotal items, pct,
           itemsSubtotal items * pct / 100,
           itemsSubtotal items - itemsSubtotal items * pct / 100⟩, ?_, rfl, rfl, rfl, rfl, rfl,
          ?_, ?_⟩
  · unfold createSaleWithItems
    rw [hcr]
  · unfold createSaleWithItems
    rw [hcr]
    simpa using hinv
  · unfold createSaleWithItems
    rw [hcr]
    simp only
    rw [hsales, List.map_append,
      map_upd_fresh db.sales db.nextSaleId _ hfresh]
    simp

/-- Witness for C4 at the spec's scenario: requesting 5 against stock 2 fails
with available 2 and requested 5, and the inventory still holds 2. -/
theorem createSaleWithItems_stock_check_witness :
    (createSaleWithItems dbShort (some 7) (some [⟨1, 5, 5⟩]) 0 noFault).result =
      .error (.insufficientStock 1 2 5) ∧
    ((2 : Int) < 5 ∧
     (createSaleWithItems dbShort (some 7) (some [⟨1, 5, 5⟩]) 0 noFault).db = dbShort) ∧
    dbShort.inventory = [⟨1, 2⟩] :=
  ⟨by decide,
   (createSaleWithItems_stock_check dbShort (some 7) [⟨1, 5, 5⟩] 0 noFault).1 1 2 5
     (by decide),
   by decide⟩

unseal Rat.mul Rat.add Rat.inv Rat.sub in
/-- Witness for C5 at the spec's scenario: quantity 3 at price 5.00 with a
10% discount against stock 10 gives subtotal 15.00, discount 1.50, total
13.50 and stock 7. -/
theorem createSaleWithItems_success_spec_witness :
    (sufficientRun dbScenario.inventory [⟨1, 3, 5⟩] = true ∧
     itemsSubtotal [⟨1, 3, (5 : ℚ)⟩] = 15 ∧
     decAll dbScenario.inventory [⟨1, 3, 5⟩] = [⟨1, 7⟩] ∧
     (15 : ℚ) * 10 / 100 = 3/2 ∧ (15 : ℚ) - 15 * 10 / 100 = 27/2) ∧
    (∃ s, (createSaleWithItems dbScenario (some 7) (some [⟨1, 3, 5⟩]) 10 noFault).result =
        .ok s ∧
      s.subtotal = itemsSubtotal [⟨1, 3, (5 : ℚ)⟩] ∧
      s.discount_percentage = 10 ∧
      s.discount_amount = itemsSubtotal [⟨1, 3, (5 : ℚ)⟩] * 10 / 100 ∧
      s.total_amount = itemsSubtotal [⟨1, 3, (5 : ℚ)⟩] -
        itemsSubtotal [⟨1, 3, (5 : ℚ)⟩] * 10 / 100 ∧
      s.user_id = 7 ∧
      (createSaleWithItems dbScenario (some 7) (some [⟨1, 3, 5⟩]) 10 noFault).db.inventory =
        decAll dbScenario.inventory [⟨1, 3, 5⟩] ∧
      (createSaleWithItems dbScenario (some 7) (some [⟨1, 3, 5⟩]) 10 noFault).db.sales =
        dbScenario.sales ++ [s]) :=
  ⟨⟨by decide, by decide, by decide, by decide, by decide⟩,
   createSaleWithItems_success_spec dbScenario 7 [⟨1, 3, 5⟩] 10 noFault
     (by decide) (by decide) (by norm_num) (by norm_num) (fun i => rfl)
     (by decide) (by decide)⟩

lemma find_map_upd (l : List SaleRow) (sid : Int) (f : SaleRow → SaleRow)
    (hf : ∀ r, (f r).sale_id = r.sale_id) :
    (l.map (fun r => if r.sale_id == sid then f r else r)).find? (fun r => r.sale_id == sid)
      = (l.find? (fun r => r.sale_id == sid)).map f := by
  induction l with
  | nil => rfl
  | cons x xs ih =>
    by_cases hx : (x.sale_id == sid) = true
    · simp only [List.map_cons, List.find?_cons, hx, if_true]
      have hfx : ((f x).sale_id == sid) = true := by
        rw [hf x]; exact hx
      simp [hfx, hx]
    · have hx' : (x.sale_id == sid) = false := by
        cases hb : (x.sale_id == sid) with
        | true => exact absurd hb hx
        | false => rfl
      simp only [List.map_cons, List.find?_cons, hx', if_false, Bool.false_eq_true, if_neg,
        not_false_eq_true]
      rw [ih]

lemma map_upd_idem (l : List SaleRow) (sid : Int) (f : SaleRow → SaleRow)
    (hid : ∀ r, (f r).sale_id = r.sale_id) (hff : ∀ r, f (f r) = f r) :
    (l.map (fun r => if r.sale_id == sid then f r else r)).map
        (fun r => if r.sale_id == sid then f r else r)
      = l.map (fun r => if r.sale_id == sid then f r else r) := by
  induction l with
  | nil => rfl
  | cons x xs ih =>
    simp only [List.map_cons]
    rw [ih]
    by_cases hx : (x.sale_id == sid) = true
    · simp only [hx, if_true]
      have hfx : ((f x).sale_id == sid) = true := by rw [hid x]; exact hx
      simp [hfx, hff x]
    · have hx' : (x.sale_id == sid) = false := by
        cases hb : (x.sale_id == sid) with
        | true => exact absurd hb hx
        | false => rfl
      simp [hx']

/-- C7.  Applying the same discount percentage twice in succession to the
same existing sale yields the identical updated row both times, and the
second application does not change the storage state again: the first write
stores the subtotal it read back, so the second read recomputes exactly the
same discount_amount and total_amount. -/
theorem applyDiscount_idempotent (db : DB) (n : Int) (p : ℚ) (sale : SaleRow)
    (hn : n ≠ 0) (hp0 : ¬ p < 0) (hp1 : ¬ 100 < p)
    (hfind : findById db n = some sale) :
    ∃ db1 s1, applyDiscount db (some n) (some p) = (db1, .ok (some s1)) ∧
      applyDiscount db1 (some n) (some p) = (db1, .ok (some s1)) := by
  have h1 : ¬ ((some n : Option Int) = none ∨ (some n : Option Int) = some 0) := by
    simp [hn]
  have h2 : ¬ (p < 0 ∨ 100 < p) := by
    intro hc; rcases hc with hc | hc
    · exact hp0 hc
    · exact hp1 hc
  let upd : SaleRow → SaleRow := fun r =>
    { r with subtotal := sale.subtotal, discount_percentage := p,
             discount_amount := sale.subtotal * p / 100,
             total_amount := sale.subtotal - sale.subtotal * p / 100 }
  have hid : ∀ r, (upd r).sale_id = r.sale_id := fun r => rfl
  have hff : ∀ r, upd (upd r) = upd r := fun r => rfl
  let g : SaleRow → SaleRow := fun r => if r.sale_id == n then upd r else r
  let db1 : DB := { db with sales := db.sales.map g }
  have hfind1 : findById db1 n = some (upd sale) := by
    show (db.sales.map g).find? (fun r => r.sale_id == n) = some (upd sale)
    rw [find_map_upd db.sales n upd hid]
    rw [show db.sales.find? (fun r => r.sale_id == n) = some sale from hfind]
    rfl
  have hu0 : updateWithDiscount db n sale.subtotal p = (db1, some (upd sale)) := by
    unfold updateWithDiscount
    rw [hfind]
    rfl
  have hu1 : updateWithDiscount db1 n (upd sale).subtotal p = (db1, some (upd sale)) := by
    unfold updateWithDiscount
    rw [hfind1]
    show ({ db1 with sales := db1.sales.map g }, some (upd (upd sale)))
      = (db1, some (upd sale))
    rw [hff sale]
    have hsl : db1.sales.map g = db1.sales := by
      show (db.sales.map g).map g = db.sales.map g
      exact map_upd_idem db.sales n upd hid hff
    rw [hsl]
  refine ⟨db1, upd sale, ?_, ?_⟩
  · unfold applyDiscount
    simp only [h1, h2, if_neg, not_false_eq_true, Option.getD_some]
    rw [hfind]
    simp only [hu0]
  · unfold applyDiscount
    simp only [h1, h2, if_neg, not_false_eq_true, Option.getD_some]
    rw [hfind1]
    simp only [hu1]

lemma SDate.leb_trans (a b c : SDate) (h1 : SDate.leb a b = true) (h2 : SDate.leb b c = true) :
    SDate.leb a c = true := by
  unfold SDate.leb at h1 h2 ⊢
  split_ifs at h1 h2 ⊢ <;> simp_all <;> omega

lemma SDate.leb_total (a b : SDate) : SDate.leb a b = true ∨ SDate.leb b a = true := by
  unfold SDate.leb
  split_ifs <;> (simp_all; try omega)

lemma mem_insertByDateDesc (r x : SaleRow) (l : List SaleRow) :
    x ∈ insertByDateDesc r l ↔ x = r ∨ x ∈ l := by
  induction l with
  | nil => simp [insertByDateDesc]
  | cons y ys ih =>
    unfold insertByDateDesc
    by_cases h : SDate.leb y.sale_date r.sale_date = true
    · simp [h]
    · simp only [h, if_false, Bool.false_eq_true, if_neg, not_false_eq_true,
        List.mem_cons, ih]
      tauto

lemma insertByDateDesc_perm (r : SaleRow) (l : List SaleRow) :
    (insertByDateDesc r l).Perm (r :: l) := by
  induction l with
  | nil => simp [insertByDateDesc]
  | cons y ys ih =>
    unfold insertByDateDesc
    by_cases h : SDate.leb y.sale_date r.sale_date = true
    · simp [h]
    · simp only [h, if_false, Bool.false_eq_true, if_neg, not_false_eq_true]
      exact (ih.cons y).trans (List.Perm.swap r y ys)

lemma sorted_insertByDateDesc (r : SaleRow) (l : List SaleRow)
    (hl : l.Pairwise (fun a b => SDate.leb b.sale_date a.sale_date = true)) :
    (insertByDateDesc r l).Pairwise
      (fun a b => SDate.leb b.sale_date a.sale_date = true) := by
  induction l with
  | nil => simp [insertByDateDesc]
  | cons y ys ih =>
    unfold insertByDateDesc
    by_cases h : SDate.leb y.sale_date r.sale_date = true
    · simp only [h, if_true]
      refine List.Pairwise.cons ?_ hl
      intro z hz
      rcases List.mem_cons.mp hz with rfl | hz
      · exact h
      · exact SDate.leb_trans _ _ _ ((List.pairwise_cons.mp hl).1 z hz) h
    · simp only [h, if_false, Bool.false_eq_true, if_neg, not_false_eq_true]
      refine List.Pairwise.cons ?_ (ih (List.pairwise_cons.mp hl).2)
      intro z hz
      rcases (mem_insertByDateDesc r z ys).mp hz with rfl | hz
      · rcases SDate.leb_total z.sale_date y.sale_date with ht | ht
        · exact ht
        · exact absurd ht h
      · exact (List.pairwise_cons.mp hl).1 z hz

lemma sorted_sortByDateDesc (l : List SaleRow) :
    (sortByDateDesc l).Pairwise
      (fun a b => SDate.leb b.sale_date a.sale_date = true) := by
  induction l with
  | nil => simp [sortByDateDesc]
  | cons x xs ih => exact sorted_insertByDateDesc x _ ih

lemma sortByDateDesc_perm (l : List SaleRow) : (sortByDateDesc l).Perm l := by
  induction l with
  | nil => simp [sortByDateDesc]
  | cons x xs ih =>
    unfold sortByDateDesc
    exact (insertByDateDesc_perm x (sortByDateDesc xs)).trans (ih.cons x)

/-- C9.  For every well-formed date pair, the repository date-range lookup
returns exactly the sales whose sale_date lies in the inclusive
[startDate, endDate] window (a permutation of the filtered table, with
membership equivalence), ordered descending by sale date. -/
theorem findBetweenDates_window (db : DB) (s e : String) (d1 d2 : SDate)
    (h1 : parseDDMMYYYY s = some d1) (h2 : parseDDMMYYYY e = some d2) :
    ∃ l, findBetweenDates db s e = .ok l ∧
      l.Perm (db.sales.filter
        (fun r => SDate.leb d1 r.sale_date && SDate.leb r.sale_date d2)) ∧
      (∀ r, r ∈ l ↔ r ∈ db.sales ∧
        SDate.leb d1 r.sale_date = true ∧ SDate.leb r.sale_date d2 = true) ∧
      l.Pairwise (fun a b => SDate.leb b.sale_date a.sale_date = true) := by
  refine ⟨sortByDateDesc (db.sales.filter
      (fun r => SDate.leb d1 r.sale_date && SDate.leb r.sale_date d2)), ?_, ?_, ?_, ?_⟩
  · unfold findBetweenDates
    rw [h1, h2]
  · exact sortByDateDesc_perm _
  · intro r
    rw [(sortByDateDesc_perm _).mem_iff]
    simp [List.mem_filter]
  · exact sorted_sortByDateDesc _

unseal Rat.mul Rat.add Rat.inv Rat.sub in
/-- Witness for C7: applying 20% twice to the sale with subtotal 10. -/
theorem applyDiscount_idempotent_witness :
    ((1 : Int) ≠ 0 ∧ ¬ (20 : ℚ) < 0 ∧ ¬ (100 : ℚ) < 20 ∧
     findById dbTen 1 = some ⟨1, 7, ⟨2024, 5, 1⟩, 10, 0, 0, 10⟩) ∧
    (∃ db1 s1, applyDiscount dbTen (some 1) (some 20) = (db1, .ok (some s1)) ∧
      applyDiscount db1 (some 1) (some 20) = (db1, .ok (some s1))) :=
  ⟨⟨by decide, by decide, by decide, by decide⟩,
   applyDiscount_idempotent dbTen 1 20 ⟨1, 7, ⟨2024, 5, 1⟩, 10, 0, 0, 10⟩
     (by decide) (by decide) (by decide) (by decide)⟩

/-- Witness for C9 at the spec's scenario window 01/01/2024 – 31/01/2024. -/
theorem findBetweenDates_window_witness :
    (parseDDMMYYYY "01/01/2024" = some ⟨2024, 1, 1⟩ ∧
     parseDDMMYYYY "31/01/2024" = some ⟨2024, 1, 31⟩) ∧
    (∃ l, findBetweenDates dbDates "01/01/2024" "31/01/2024" = .ok l ∧
      l.Perm (dbDates.sales.filter
        (fun r => SDate.leb ⟨2024, 1, 1⟩ r.sale_date &&
          SDate.leb r.sale_date ⟨2024, 1, 31⟩)) ∧
      (∀ r, r ∈ l ↔ r ∈ dbDates.sales ∧
        SDate.leb ⟨2024, 1, 1⟩ r.sale_date = true ∧
        SDate.leb r.sale_date ⟨2024, 1, 31⟩ = true) ∧
      l.Pairwise (fun a b => SDate.leb b.sale_date a.sale_date = true)) :=
  ⟨⟨by decide, by decide⟩,
   findBetweenDates_window dbDates "01/01/2024" "31/01/2024" ⟨2024, 1, 1⟩ ⟨2024, 1, 31⟩
     (by decide) (by decide)⟩
